import Mathlib

/-!
Verification of the arduinoMux firmware core (16-channel multiplexer
controller).  The constant tables below are transcribed from
`irrad_control/devices/arduino/arduino_mux/arduinoMux/state.h`; the
protocol-engine operations, whose source is not part of the repository
snapshot, are modelled from the design specification.
-/

namespace arduinoMux

/-- Serial baud rate, from `#define BAUDRATE 9600` in state.h. -/
def BAUDRATE : Nat := 9600

namespace state

/-- Number of logical channels (`state::channel_count` in state.h). -/
def channel_count : Nat := 16

/-- Receive-buffer capacity in bytes (`state::buff_len` in state.h). -/
def buff_len : Nat := 256

/-- Physical pin identifier per channel (`state::channels` in state.h). -/
def channels : List Nat :=
  [14, 15, 16, 17, 18, 19, 12, 13, 4, 5, 6, 7, 8, 9, 10, 11]

/-- Compiled-in default boolean state per channel
(`state::default_state` in state.h). -/
def default_state : List Bool :=
  [false, false, false, false, false, false, false, false,
   false, false, false, true,  true,  false, true,  false]

/-- Watchdog timeout in milliseconds (`state::timeout_delay` in state.h). -/
def timeout_delay : Nat := 1500

/-- Frame terminator byte (`state::terminator = '\n'` in state.h). -/
def terminator : Char := '\n'

/-- Command character for Enable (`state::enable_char` in state.h). -/
def enable_char : Char := 'E'

/-- Command character for Disable (`state::disable_char` in state.h). -/
def disable_char : Char := 'D'

/-- Command character for Hold (`state::hold_char` in state.h). -/
def hold_char : Char := 'P'

/-- Command character for Query (`state::request_char` in state.h). -/
def request_char : Char := 'Q'

/-- Command character for Reset (`state::reset_char` in state.h). -/
def reset_char : Char := 'R'

/-- Initial value of the dirty flag
(`bool changes_occured = false;` in state.h). -/
def changes_occured_init : Bool := false

/-- Protocol-level error taxonomy from the specification (section 7):
out-of-range registry index, unrecognized command byte, out-of-range
channel argument, receive-buffer overflow. -/
inductive Err where
  | OutOfRange
  | UnknownCommand
  | InvalidChannel
  | BufferOverflow
deriving DecidableEq, Repr

/-- Modelled from the spec: the Channel Registry accessor
`pin_for(channel_index) -> pin_id`, total over [0,16) via the
compiled-in `channels` table and failing with `OutOfRange` outside. -/
def pin_for (i : Nat) : Except Err Nat :=
  if i < channel_count then Except.ok (channels.getD i 0)
  else Except.error Err.OutOfRange

/-- Modelled from the spec: the Channel Registry accessor
`default_state_for(channel_index) -> bool`, total over [0,16) via the
compiled-in `default_state` table and failing with `OutOfRange`
outside. -/
def default_state_for (i : Nat) : Except Err Bool :=
  if i < channel_count then Except.ok (default_state.getD i false)
  else Except.error Err.OutOfRange

/-- Modelled from the spec: the Protocol Engine state — per-channel
boolean state, receive buffer, last-activity timestamp and the dirty
flag (`changes_occured`).  The source file state.h only declares the
globals `channel_state`, `read_buffer` and `changes_occured`. -/
structure Engine where
  channel_state : List Bool
  read_buffer : List Char
  last_activity_time : Nat
  changes_occured : Bool
deriving DecidableEq, Repr

/-- Modelled from the spec: boot initialization — current state loaded
from the compiled-in defaults, empty receive buffer, dirty flag false
(matching the `= false` initializer in state.h). -/
def boot (t0 : Nat) : Engine :=
  { channel_state := default_state
    read_buffer := []
    last_activity_time := t0
    changes_occured := changes_occured_init }

/-- Modelled from the spec: decode a channel-index argument, the bytes
of the frame after the command character, as an unsigned decimal
number (the scenario in section 8 sends frames such as E0 and D11).
A missing or non-numeric argument yields no index. -/
def parseIndex (args : List Char) : Option Nat :=
  if args.isEmpty || args.any (fun c => !c.isDigit) then none
  else some (args.foldl (fun acc c => 10 * acc + (c.toNat - 48)) 0)

/-- Modelled from the spec: the shared Enable/Disable transition —
decode the channel argument, reject indices outside [0,16) with
`InvalidChannel`, and write the requested boolean, raising the dirty
flag only when the stored value actually changed. -/
def set_channel (args : List Char) (v : Bool) (e : Engine) :
    Except Err Engine :=
  match parseIndex args with
  | none => Except.error Err.InvalidChannel
  | some i =>
    if i < channel_count then
      if e.channel_state.getD i false = v then Except.ok e
      else Except.ok { e with channel_state := e.channel_state.set i v
                              changes_occured := true }
    else Except.error Err.InvalidChannel

/-- Modelled from the spec: the Reset effect — every channel restored
to its compiled-in default; the dirty flag rises exactly when some
channel value actually changed. -/
def resetChannels (e : Engine) : Engine :=
  { e with channel_state := default_state
           changes_occured :=
             e.changes_occured || (e.channel_state != default_state) }

/-- Modelled from the spec: the Hold transition — decode and validate
the channel argument exactly as Enable/Disable do, but leave all state
unchanged (acknowledged no-op). -/
def hold_channel (args : List Char) (e : Engine) : Except Err Engine :=
  match parseIndex args with
  | none => Except.error Err.InvalidChannel
  | some i =>
    if i < channel_count then Except.ok e
    else Except.error Err.InvalidChannel

/-- Modelled from the spec: `dispatch(frame)` — interpret the first
byte of the frame against the five recognized command characters;
any other leading byte fails with `UnknownCommand`.  Query triggers
only the external reporting side effect, so the engine state is
returned unchanged. -/
def dispatch (frame : List Char) (e : Engine) : Except Err Engine :=
  match frame with
  | [] => Except.error Err.UnknownCommand
  | c :: args =>
    if c = enable_char then set_channel args true e
    else if c = disable_char then set_channel args false e
    else if c = hold_char then hold_channel args e
    else if c = request_char then Except.ok e
    else if c = reset_char then Except.ok (resetChannels e)
    else Except.error Err.UnknownCommand

/-- Modelled from the spec: run `dispatch` on a completed frame; a
failed dispatch discards the frame and leaves the engine untouched,
surfacing the protocol error. -/
def handle_frame (frame : List Char) (e : Engine) : Engine × Option Err :=
  match dispatch frame e with
  | Except.ok e2 => (e2, none)
  | Except.error err => (e, some err)

/-- Modelled from the spec: `on_byte_received(byte)` — on the
terminator byte the accumulated frame is parsed and dispatched, the
buffer cleared and the activity clock refreshed; otherwise the byte is
appended while the buffer is not full, and a full buffer is reset with
the partial frame discarded (`BufferOverflow`). -/
def on_byte_received (b : Char) (t : Nat) (e : Engine) :
    Engine × Option Err :=
  if b = terminator then
    let r := handle_frame e.read_buffer e
    ({ r.1 with read_buffer := []
                last_activity_time := t }, r.2)
  else if e.read_buffer.length < buff_len then
    ({ e with read_buffer := e.read_buffer ++ [b] }, none)
  else
    ({ e with read_buffer := [] }, some Err.BufferOverflow)

/-- Modelled from the spec: `tick(current_time)` — when the elapsed
time since the last accepted command reaches `timeout_delay`, perform
the same state effect as a Reset command and refresh the activity
clock to suppress repeated firing; otherwise do nothing. -/
def tick (t : Nat) (e : Engine) : Engine :=
  if timeout_delay ≤ t - e.last_activity_time then
    { resetChannels e with last_activity_time := t }
  else e

/-- Modelled from the spec: `consume_dirty()` — return the dirty flag
and clear it in the same step. -/
def consume_dirty (e : Engine) : Bool × Engine :=
  (e.changes_occured, { e with changes_occured := false })

/-- Helper: tick does nothing while the elapsed time is below the
watchdog timeout. -/
theorem tick_quiet (t : Nat) (e : Engine)
    (h : t - e.last_activity_time < timeout_delay) : tick t e = e := by
  have hn : ¬ timeout_delay ≤ t - e.last_activity_time := by omega
  simp [tick, hn]

/-- C1: at boot, every channel's current boolean state equals its
compiled-in default state, before any command is processed. -/
theorem c1_boot_state_is_default (t0 : Nat) :
    (boot t0).channel_state = default_state ∧
    ∀ i, i < channel_count →
      (boot t0).channel_state.getD i false = default_state.getD i false :=
  ⟨rfl, fun _ _ => rfl⟩

theorem c1_boot_state_is_default_witness :
    11 < channel_count ∧
    (boot 0).channel_state.getD 11 false = default_state.getD 11 false :=
  ⟨by decide, (c1_boot_state_is_default 0).2 11 (by decide)⟩

/-- C2: the compiled-in default table has exactly 16 entries and is
true exactly at indices 11, 12 and 14, i.e. it is
[F,F,F,F,F,F,F,F,F,F,F,T,T,F,T,F]. -/
theorem c2_default_table :
    default_state.length = 16 ∧
    default_state =
      [false, false, false, false, false, false, false, false,
       false, false, false, true, true, false, true, false] ∧
    ∀ i, i < 16 →
      (default_state.getD i false = true ↔ (i = 11 ∨ i = 12 ∨ i = 14)) :=
  ⟨rfl, rfl, by decide⟩

theorem c2_default_table_witness :
    11 < 16 ∧
    (default_state.getD 11 false = true ↔ (11 = 11 ∨ 11 = 12 ∨ 11 = 14)) :=
  ⟨by decide, c2_default_table.2.2 11 (by decide)⟩

/-- C3: pin_for and default_state_for are total over [0,16), returning
the fixed pin identifier and default boolean, and both fail with
OutOfRange for every index outside [0,16). -/
theorem c3_registry_domain :
    (∀ i, i < channel_count →
        pin_for i = Except.ok (channels.getD i 0) ∧
        default_state_for i = Except.ok (default_state.getD i false)) ∧
    ∀ i, channel_count ≤ i →
        pin_for i = Except.error Err.OutOfRange ∧
        default_state_for i = Except.error Err.OutOfRange := by
  constructor
  · intro i hi
    simp [pin_for, default_state_for, hi]
  · intro i hi
    have hn : ¬ i < channel_count := by omega
    simp [pin_for, default_state_for, hn]

theorem c3_registry_domain_witness :
    channel_count ≤ 16 ∧
    pin_for 16 = Except.error Err.OutOfRange ∧
    default_state_for 16 = Except.error Err.OutOfRange :=
  ⟨by decide, c3_registry_domain.2 16 (by decide)⟩

/-- C4: the watchdog — once 1500 ms have elapsed since the last
activity, tick performs the same state effect as a Reset command and
refreshes the activity clock, so that during continued silence it
fires exactly once per timeout window; below the threshold tick
changes nothing. -/
theorem c4_watchdog (t : Nat) (e : Engine) :
    (timeout_delay ≤ t - e.last_activity_time →
        tick t e = { resetChannels e with last_activity_time := t } ∧
        (tick t e).channel_state = default_state ∧
        (tick t e).last_activity_time = t ∧
        ∀ t2, t2 - t < timeout_delay → tick t2 (tick t e) = tick t e) ∧
    (t - e.last_activity_time < timeout_delay → tick t e = e) := by
  constructor
  · intro h
    have h1 : tick t e = { resetChannels e with last_activity_time := t } := by
      simp [tick, h]
    refine ⟨h1, by rw [h1]; rfl, by rw [h1], ?_⟩
    intro t2 h2
    exact tick_quiet t2 (tick t e) (by rw [h1]; exact h2)
  · intro h
    exact tick_quiet t e h

theorem c4_watchdog_witness :
    timeout_delay ≤ 1500 - (boot 0).last_activity_time ∧
    (tick 1500 (boot 0)).channel_state = default_state ∧
    (tick 1500 (boot 0)).last_activity_time = 1500 :=
  ⟨by decide,
   ((c4_watchdog 1500 (boot 0)).1 (by decide)).2.1,
   ((c4_watchdog 1500 (boot 0)).1 (by decide)).2.2.1⟩

/-- C5: the receive buffer has capacity exactly 256 bytes;
on_byte_received never grows the buffer past that capacity, and when a
non-terminator byte arrives with the buffer already full it resets the
buffer, discards the partial frame with BufferOverflow, and leaves
every channel state untouched. -/
theorem c5_buffer_overflow (b : Char) (t : Nat) (e : Engine) :
    buff_len = 256 ∧
    (e.read_buffer.length ≤ buff_len →
        (on_byte_received b t e).1.read_buffer.length ≤ buff_len) ∧
    (b ≠ terminator → buff_len ≤ e.read_buffer.length →
        on_byte_received b t e =
          ({ e with read_buffer := [] }, some Err.BufferOverflow)) := by
  refine ⟨rfl, ?_, ?_⟩
  · intro hle
    by_cases hb : b = terminator
    · simp [on_byte_received, hb]
    · by_cases hlen : e.read_buffer.length < buff_len
      · simp [on_byte_received, hb, hlen]
        omega
      · simp [on_byte_received, hb, hlen]
  · intro hb hfull
    have hlen : ¬ e.read_buffer.length < buff_len := by omega
    simp [on_byte_received, hb, hlen]

set_option maxRecDepth 4000 in
theorem c5_buffer_overflow_witness :
    ('x' ≠ terminator ∧
      buff_len ≤ (Engine.mk default_state (List.replicate 256 'a') 0 false).read_buffer.length) ∧
    on_byte_received 'x' 0 (Engine.mk default_state (List.replicate 256 'a') 0 false) =
      ({ Engine.mk default_state (List.replicate 256 'a') 0 false with
          read_buffer := [] }, some Err.BufferOverflow) :=
  ⟨⟨by decide, by decide⟩,
   (c5_buffer_overflow 'x' 0 (Engine.mk default_state (List.replicate 256 'a') 0 false)).2.2
     (by decide) (by decide)⟩

/-- C6: the protocol recognizes exactly the five command characters
E, D, P, Q, R; a frame whose first byte is any other character makes
dispatch fail with UnknownCommand, and the frame is discarded with all
channel states unchanged. -/
theorem c6_unknown_command (c : Char) (args : List Char) (e : Engine)
    (h : c ≠ enable_char ∧ c ≠ disable_char ∧ c ≠ hold_char ∧
         c ≠ request_char ∧ c ≠ reset_char) :
    dispatch (c :: args) e = Except.error Err.UnknownCommand ∧
    handle_frame (c :: args) e = (e, some Err.UnknownCommand) ∧
    enable_char = 'E' ∧ disable_char = 'D' ∧ hold_char = 'P' ∧
    request_char = 'Q' ∧ reset_char = 'R' := by
  obtain ⟨h1, h2, h3, h4, h5⟩ := h
  have hd : dispatch (c :: args) e = Except.error Err.UnknownCommand := by
    simp [dispatch, h1, h2, h3, h4, h5]
  exact ⟨hd, by simp [handle_frame, hd], rfl, rfl, rfl, rfl, rfl⟩

theorem c6_unknown_command_witness :
    ('Z' ≠ enable_char ∧ 'Z' ≠ disable_char ∧ 'Z' ≠ hold_char ∧
      'Z' ≠ request_char ∧ 'Z' ≠ reset_char) ∧
    dispatch ['Z', '0'] (boot 0) = Except.error Err.UnknownCommand ∧
    handle_frame ['Z', '0'] (boot 0) = (boot 0, some Err.UnknownCommand) :=
  ⟨by decide,
   (c6_unknown_command 'Z' ['0'] (boot 0) (by decide)).1,
   (c6_unknown_command 'Z' ['0'] (boot 0) (by decide)).2.1⟩

/-- C7: the frame terminator is the newline byte 0x0A; on_byte_received
parses and dispatches the accumulated frame exactly when it observes
that byte, and any other byte neither mutates channel state nor
refreshes the activity clock. -/
theorem c7_terminator (b : Char) (t : Nat) (e : Engine) :
    terminator = '\n' ∧ terminator.toNat = 10 ∧
    (b = terminator →
        on_byte_received b t e =
          ({ (handle_frame e.read_buffer e).1 with
              read_buffer := []
              last_activity_time := t },
           (handle_frame e.read_buffer e).2)) ∧
    (b ≠ terminator →
        (on_byte_received b t e).1.channel_state = e.channel_state ∧
        (on_byte_received b t e).1.last_activity_time =
          e.last_activity_time) := by
  refine ⟨rfl, by decide, ?_, ?_⟩
  · intro hb
    simp [on_byte_received, hb]
  · intro hb
    by_cases hlen : e.read_buffer.length < buff_len
    · simp [on_byte_received, hb, hlen]
    · simp [on_byte_received, hb, hlen]

theorem c7_terminator_witness :
    on_byte_received terminator 7 (boot 0) =
      ({ (handle_frame (boot 0).read_buffer (boot 0)).1 with
          read_buffer := []
          last_activity_time := 7 },
       (handle_frame (boot 0).read_buffer (boot 0)).2) :=
  (c7_terminator terminator 7 (boot 0)).2.2.1 rfl

/-- C8: the pin table is duplicate-free, so pin_for is injective on
[0,16): distinct channel indices always map to distinct physical
pins. -/
theorem c8_pin_injective :
    channels.Nodup ∧
    ∀ i, i < channel_count → ∀ j, j < channel_count → i ≠ j →
      channels.getD i 0 ≠ channels.getD j 0 ∧ pin_for i ≠ pin_for j := by
  have key : ∀ i, i < channel_count → ∀ j, j < channel_count → i ≠ j →
      channels.getD i 0 ≠ channels.getD j 0 := by decide
  refine ⟨by decide, ?_⟩
  intro i hi j hj hij
  refine ⟨key i hi j hj hij, ?_⟩
  have hg := key i hi j hj hij
  unfold pin_for
  rw [if_pos hi, if_pos hj]
  intro hcontra
  exact hg (Except.ok.inj hcontra)

theorem c8_pin_injective_witness :
    0 < channel_count ∧ 1 < channel_count ∧ (0 : Nat) ≠ 1 ∧
    channels.getD 0 0 ≠ channels.getD 1 0 ∧ pin_for 0 ≠ pin_for 1 :=
  ⟨by decide, by decide, by decide,
   c8_pin_injective.2 0 (by decide) 1 (by decide) (by decide)⟩

/-- C9: the dirty flag is false at boot, so consume_dirty called before
any mutation returns false (and leaves the flag false). -/
theorem c9_dirty_false_at_boot :
    changes_occured_init = false ∧
    ∀ t0 : Nat, (consume_dirty (boot t0)).1 = false ∧
      (consume_dirty (boot t0)).2.changes_occured = false :=
  ⟨rfl, fun _ => ⟨rfl, rfl⟩⟩

theorem c9_dirty_false_at_boot_witness :
    (consume_dirty (boot 0)).1 = false :=
  (c9_dirty_false_at_boot.2 0).1

end state

/-- C10: the compiled-in serial baud-rate constant equals 9600. -/
theorem c10_baudrate : BAUDRATE = 9600 := rfl

end arduinoMux
